import Mathlib

/-!
Verification of the core machinery of the `elizabeth` synthetic-data library:
the mask/pattern expansion engine (`Code.custom_code`), the Luhn checksum
module, the derived-attribute store of `Personal` (age / child_count /
work_experience), and the `Generic` provider facade (registration and lazy
locale-aware accessors).

Randomness is modelled by explicit oracles: a random stream `g : Nat → Nat`
supplies one natural number per call to a random primitive, and
`randint a b r` renders Python's `random.randint(a, b)` as
`a + r % (b - a + 1)` (uniform over `[a, b]` when `a ≤ b` as `r` ranges over
residues).
-/

namespace Elizabeth

/-- `string.ascii_uppercase`. -/
def ascii_uppercase : List Char :=
  ['A', 'B', 'C', 'D', 'E', 'F', 'G', 'H', 'I', 'J', 'K', 'L', 'M',
   'N', 'O', 'P', 'Q', 'R', 'S', 'T', 'U', 'V', 'W', 'X', 'Y', 'Z']

/-- `string.digits`. -/
def pyDigits : List Char :=
  ['0', '1', '2', '3', '4', '5', '6', '7', '8', '9']

/-- Python `random.choice(seq)`: pick the element at a uniformly chosen index.
The oracle value `r` selects the index `r % len(seq)`. -/
def pyChoice (l : List Char) (r : Nat) : Char :=
  l.getD (r % l.length) 'A'

/-- Python `random.randint(a, b)` (inclusive bounds): oracle value `r`
selects `a + r % (b - a + 1)`. Only meaningful when `a ≤ b` (Python raises
`ValueError` otherwise). -/
def randint (a b : Int) (r : Nat) : Int :=
  a + (r : Int) % (b - a + 1)

/-- The single decimal digit `n % 10` rendered as a character, i.e.
`str(randint(0, 9))` for an oracle value `n`. -/
def digitChar (n : Nat) : Char :=
  Char.ofNat (48 + n % 10)

/-- Character-list core of `Code.custom_code`: scan the mask left to right;
a character equal to `char` becomes `choice(ascii_uppercase)`, else one equal
to `digit` becomes `str(randint(0, 9))`, else it is copied unchanged.
`k` is the position in the random stream `g`; each placeholder consumes one
oracle value, literals consume none. -/
def custom_code_aux (mask : List Char) (char digit : Char) (g : Nat → Nat)
    (k : Nat) : List Char :=
  match mask with
  | [] => []
  | p :: rest =>
    if p = char then
      pyChoice ascii_uppercase (g k) :: custom_code_aux rest char digit g (k + 1)
    else if p = digit then
      digitChar (g k) :: custom_code_aux rest char digit g (k + 1)
    else
      p :: custom_code_aux rest char digit g k

/-- `Code.custom_code(mask, char, digit)` with the random stream `g` made
explicit. -/
def custom_code (mask : String) (char digit : Char) (g : Nat → Nat) : String :=
  ⟨custom_code_aux mask.data char digit g 0⟩

/-- Variant of `custom_code_aux` in which only the letter rule exists:
used to state that when `char = digit` the digit branch is dead code. -/
def custom_code_aux_letter (mask : List Char) (char : Char) (g : Nat → Nat)
    (k : Nat) : List Char :=
  match mask with
  | [] => []
  | p :: rest =>
    if p = char then
      pyChoice ascii_uppercase (g k) :: custom_code_aux_letter rest char g (k + 1)
    else
      p :: custom_code_aux_letter rest char g k

/-- `c` is an uppercase ASCII letter. -/
def isUpperAscii (c : Char) : Prop :=
  'A' ≤ c ∧ c ≤ 'Z'

instance (c : Char) : Decidable (isUpperAscii c) := by
  unfold isUpperAscii; infer_instance

/-- `c` is a decimal digit character. -/
def isDigitChar (c : Char) : Prop :=
  '0' ≤ c ∧ c ≤ '9'

instance (c : Char) : Decidable (isDigitChar c) := by
  unfold isDigitChar; infer_instance

lemma ascii_uppercase_length : ascii_uppercase.length = 26 := rfl

lemma pyChoice_ascii_upper (r : Nat) : isUpperAscii (pyChoice ascii_uppercase r) := by
  have hlt : r % 26 < 26 := Nat.mod_lt _ (by decide)
  have hall : ∀ j : Fin 26, isUpperAscii (ascii_uppercase.getD j 'A') := by decide
  have := hall ⟨r % 26, hlt⟩
  simpa [pyChoice, ascii_uppercase_length] using this

lemma digitChar_digit (n : Nat) : isDigitChar (digitChar n) := by
  have hlt : n % 10 < 10 := Nat.mod_lt _ (by decide)
  have hall : ∀ j : Fin 10, isDigitChar (Char.ofNat (48 + j)) := by decide
  have := hall ⟨n % 10, hlt⟩
  simpa [digitChar] using this

lemma custom_code_aux_length (mask : List Char) (char digit : Char)
    (g : Nat → Nat) (k : Nat) :
    (custom_code_aux mask char digit g k).length = mask.length := by
  induction mask generalizing k with
  | nil => rfl
  | cons p rest ih =>
    by_cases h1 : p = char
    · simp only [custom_code_aux, if_pos h1, List.length_cons, ih]
    · by_cases h2 : p = digit
      · simp only [custom_code_aux, if_neg h1, if_pos h2, List.length_cons, ih]
      · simp only [custom_code_aux, if_neg h1, if_neg h2, List.length_cons, ih]

lemma custom_code_aux_spec (mask : List Char) (char digit : Char)
    (g : Nat → Nat) (k i : Nat) (hi : i < mask.length) :
    (mask.getD i ' ' = char →
      isUpperAscii ((custom_code_aux mask char digit g k).getD i ' ')) ∧
    (mask.getD i ' ' ≠ char → mask.getD i ' ' = digit →
      isDigitChar ((custom_code_aux mask char digit g k).getD i ' ')) ∧
    (mask.getD i ' ' ≠ char → mask.getD i ' ' ≠ digit →
      (custom_code_aux mask char digit g k).getD i ' ' = mask.getD i ' ') := by
  induction mask generalizing k i with
  | nil => simp at hi
  | cons p rest ih =>
    cases i with
    | zero =>
      by_cases h1 : p = char
      · refine ⟨fun _ => ?_, fun hc _ => ?_, fun hc _ => ?_⟩
        · simp only [custom_code_aux, if_pos h1, List.getD]
          exact pyChoice_ascii_upper (g k)
        · simp only [List.getD] at hc; exact absurd h1 hc
        · simp only [List.getD] at hc; exact absurd h1 hc
      · by_cases h2 : p = digit
        · refine ⟨fun hc => ?_, fun _ _ => ?_, fun _ hd => ?_⟩
          · simp only [List.getD] at hc; exact absurd hc h1
          · simp only [custom_code_aux, if_neg h1, if_pos h2, List.getD]
            exact digitChar_digit (g k)
          · simp only [List.getD] at hd; exact absurd h2 hd
        · refine ⟨fun hc => ?_, fun _ hd => ?_, fun _ _ => ?_⟩
          · simp only [List.getD] at hc; exact absurd hc h1
          · simp only [List.getD] at hd; exact absurd hd h2
          · simp only [custom_code_aux, if_neg h1, if_neg h2]
            rfl
    | succ j =>
      have hj : j < rest.length := by simpa using hi
      by_cases h1 : p = char
      · have := ih (k + 1) j hj
        simpa [custom_code_aux, if_pos h1, List.getD] using this
      · by_cases h2 : p = digit
        · have := ih (k + 1) j hj
          simpa [custom_code_aux, if_neg h1, if_pos h2, List.getD] using this
        · have := ih k j hj
          simpa [custom_code_aux, if_neg h1, if_neg h2, List.getD] using this

lemma custom_code_aux_id (mask : List Char) (char digit : Char)
    (g : Nat → Nat) (k : Nat)
    (h : ∀ p ∈ mask, p ≠ char ∧ p ≠ digit) :
    custom_code_aux mask char digit g k = mask := by
  induction mask generalizing k with
  | nil => rfl
  | cons p rest ih =>
    have hp := h p (List.mem_cons_self p rest)
    have hrest : ∀ q ∈ rest, q ≠ char ∧ q ≠ digit :=
      fun q hq => h q (List.mem_cons_of_mem p hq)
    simp only [custom_code_aux, if_neg hp.1, if_neg hp.2, List.cons.injEq]
    exact ⟨trivial, ih k hrest⟩

lemma custom_code_aux_collision (mask : List Char) (c : Char)
    (g : Nat → Nat) (k : Nat) :
    custom_code_aux mask c c g k = custom_code_aux_letter mask c g k := by
  induction mask generalizing k with
  | nil => rfl
  | cons p rest ih =>
    by_cases h1 : p = c
    · simp [custom_code_aux, custom_code_aux_letter, h1, ih]
    · simp [custom_code_aux, custom_code_aux_letter, h1, ih]

/-- Luhn adjustment step: a doubled digit exceeding 9 has 9 subtracted. -/
def luhnAdjust (n : Nat) : Nat :=
  if n > 9 then n - 9 else n

/-- Luhn digit sum over a digit list given rightmost-first; `dbl` says whether
the head digit is doubled, and the flag alternates along the list. -/
def luhnFold : List Nat → Bool → Nat
  | [], _ => 0
  | d :: rest, dbl => (if dbl then luhnAdjust (2 * d) else d) + luhnFold rest (!dbl)

/-- Modelled from the spec: `luhn_checksum` is imported from `elizabeth.utils`,
a module not present in the provided sources. Per §4.3, starting from the
rightmost digit of the input, every second digit is doubled (with 9 subtracted
from doubled values exceeding 9), all digits are summed, and the check digit is
`(10 - (sum mod 10)) mod 10`. Digits are given most-significant-first, as in
the input string. -/
def luhn_checksum (ds : List Nat) : Nat :=
  (10 - (luhnFold ds.reverse true) % 10) % 10

/-- Modelled from the spec: standard Luhn mod-10 validation of a full number
(check digit included): doubling starts at the second digit from the right, and
the total must be divisible by 10. -/
def luhnValid (ds : List Nat) : Prop :=
  (luhnFold ds.reverse false) % 10 = 0

instance (ds : List Nat) : Decidable (luhnValid ds) := by
  unfold luhnValid; infer_instance

/-- Digit values of a string of decimal digit characters. -/
def strToDigits (s : String) : List Nat :=
  s.data.map (fun c => c.toNat - 48)

/-- `luhn_checksum` on a string input, returning the single-character string
the spec describes. -/
def luhn_checksum_str (s : String) : String :=
  ⟨[Char.ofNat (48 + luhn_checksum (strToDigits s))]⟩

lemma luhn_checksum_lt (ds : List Nat) : luhn_checksum ds < 10 :=
  Nat.mod_lt _ (by decide)

lemma luhn_append_valid (ds : List Nat) :
    luhnValid (ds ++ [luhn_checksum ds]) := by
  have hrev : (ds ++ [luhn_checksum ds]).reverse = luhn_checksum ds :: ds.reverse := by
    simp
  have hfold : luhnFold (luhn_checksum ds :: ds.reverse) false
      = luhn_checksum ds + luhnFold ds.reverse true := by
    simp [luhnFold]
  unfold luhnValid
  rw [hrev, hfold]
  unfold luhn_checksum
  have h : luhnFold ds.reverse true % 10 < 10 := Nat.mod_lt _ (by decide)
  omega

/-- Python `self._store` of `Personal`: a single `age` slot initialised to the
sentinel `0` in `Personal.__init__`. -/
structure PersonalState where
  age : Int
deriving DecidableEq, Repr

/-- `Personal.__init__`: the store starts with `age = 0` (unset sentinel). -/
def PersonalState.init : PersonalState := ⟨0⟩

namespace Personal

/-- `Personal.age(minimum=16, maximum=66)`: sample `randint(minimum, maximum)`
(oracle value `r`), store it in the `age` slot, return it. -/
def age (minimum maximum : Int) (r : Nat) (s : PersonalState) :
    Int × PersonalState :=
  let a := randint minimum maximum r
  (a, { s with age := a })

/-- `Personal.child_count(max_childs=5)`: read the stored age; if it is the
sentinel `0`, call `self.age()` with its defaults (16, 66), which stores the
sampled value; then return 0 if the age is below 18, else
`randint(0, max_childs)`. `r1` feeds the implicit `age()` call, `r2` the count. -/
def child_count (max_childs : Int) (r1 r2 : Nat) (s : PersonalState) :
    Int × PersonalState :=
  let a := s.age
  if a = 0 then
    let (a2, s2) := age 16 66 r1 s
    (if a2 < 18 then 0 else randint 0 max_childs r2, s2)
  else
    (if a < 18 then 0 else randint 0 max_childs r2, s)

/-- `Personal.work_experience(working_start_age=22)`: read the stored age; if
it is the sentinel `0`, call `self.age()` with its defaults; then return
`max(age - working_start_age, 0)`. -/
def work_experience (working_start_age : Int) (r1 : Nat) (s : PersonalState) :
    Int × PersonalState :=
  let a := s.age
  if a = 0 then
    let (a2, s2) := age 16 66 r1 s
    (max (a2 - working_start_age) 0, s2)
  else
    (max (a - working_start_age) 0, s)

end Personal

namespace Code

/-- `Code.ean(fmt='ean-13')`: mask is 8 `#` for `'ean-8'`, otherwise 13 `#`;
then `custom_code` with default placeholders. -/
def ean (fmt : String) (g : Nat → Nat) : String :=
  let mask := if fmt = "ean-8" then "########" else "#############"
  custom_code mask '@' '#' g

/-- `'###-{0}-#####-###-#'.format(p)`: the ISBN-13 mask after group
substitution. -/
def isbnMask13 (p : String) : String :=
  "###-" ++ p ++ "-#####-###-#"

/-- `'{0}-#####-###-#'.format(p)`: the ISBN-10 mask after group substitution. -/
def isbnMask10 (p : String) : String :=
  p ++ "-#####-###-#"

/-- `Code.isbn(fmt='isbn-10')`: choose the 13- or 10-digit mask by comparing
`fmt` with `'isbn-13'`, substitute the locale's ISBN group (or `'#'` when the
locale is absent from the table), expand. The group table `intd.ISBN_GROUPS`
is locale data external to the algorithm and is taken as the parameter
`groups`. -/
def isbn (groups : String → Option String) (locale fmt : String)
    (g : Nat → Nat) : String :=
  let p := match groups locale with
    | some x => x
    | none => "#"
  let mask := if fmt = "isbn-13" then isbnMask13 p else isbnMask10 p
  custom_code mask '@' '#' g

end Code

/-- Python `random.choice` over a list of integers. -/
def pyChoiceInt (l : List Int) (r : Nat) : Int :=
  l.getD (r % l.length) 0

/-- The `while len(number) < length - 1: number += choice(digits)` padding
loop of `Personal.credit_card_number`; `k` is the random-stream position. -/
def padTo (s : List Char) (target : Nat) (g : Nat → Nat) (k : Nat) :
    List Char :=
  if s.length < target then
    padTo (s ++ [pyChoice pyDigits (g k)]) target g (k + 1)
  else s
termination_by target - s.length
decreasing_by
  simp_wf
  omega

/-- Fixed positional split of a digit string into groups of the given sizes
(the `regex.search(...).groups()` step of `credit_card_number`). -/
def takeGroups : List Nat → List Char → List (List Char)
  | [], _ => []
  | n :: ns, s => s.take n :: takeGroups ns (s.drop n)

/-- `" ".join(...)` over the character groups. -/
def joinSpace (l : List (List Char)) : String :=
  String.intercalate " " (l.map (fun cs => ⟨cs⟩))

/-- Shared tail of `Personal.credit_card_number`: render the starting number,
pad it with random digits to `length - 1` characters, append the Luhn check
digit and regroup per the card family's split pattern. -/
def cardFormat (length : Nat) (parts : List Nat) (number : Int)
    (g : Nat → Nat) (k : Nat) : String :=
  let body := padTo (toString number).data (length - 1) g k
  let full := body ++ [Char.ofNat (48 + luhn_checksum (strToDigits ⟨body⟩))]
  joinSpace (takeGroups parts full)

/-- `Personal.credit_card_number(card_type='visa')`: select the issuing
network's starting range, length and split pattern; an unrecognized
`card_type` raises `NotImplementedError("Card type {} is not supported.")`. -/
def Personal.credit_card_number (card_type : String) (g : Nat → Nat) :
    Except String String :=
  if card_type ∈ (["visa", "vi", "v"] : List String) then
    .ok (cardFormat 16 [4, 4, 4, 4] (randint 4000 4999 (g 0)) g 1)
  else if card_type ∈ (["master_card", "mc", "master", "m"] : List String) then
    .ok (cardFormat 16 [4, 4, 4, 4]
      (pyChoiceInt [randint 2221 2720 (g 0), randint 5100 5500 (g 1)] (g 2)) g 3)
  else if card_type ∈ (["american_express", "amex", "ax", "a"] : List String) then
    .ok (cardFormat 15 [4, 6, 5] (pyChoiceInt [34, 37] (g 0)) g 1)
  else
    .error ("Card type " ++ card_type ++ " is not supported.")

/-- The nested `Meta` attribute of a provider class, as `add_provider`
inspects it: whether it is itself a class, and its `name` attribute when
present. -/
structure MetaAttr where
  isClass : Bool
  name : Option String
deriving DecidableEq, Repr

/-- A provider class descriptor: its `__name__` and its `Meta` attribute when
present. -/
structure ClassDesc where
  clsName : String
  meta : Option MetaAttr
deriving DecidableEq, Repr

/-- An arbitrary Python value handed to `add_provider`: either a class
descriptor or a non-class value (abstracted by a tag). -/
inductive PyValue where
  | cls (c : ClassDesc)
  | other (tag : Nat)
deriving DecidableEq, Repr

/-- `str.lower()` character by character (ASCII case mapping). -/
def strLower (s : String) : String :=
  ⟨s.data.map Char.toLower⟩

/-- The registration-name computation of `Generic.add_provider`: `name = ''`;
if the class has a `Meta` attribute, `name = Meta.name` when `Meta` is a class
with a `name` attribute (otherwise `name` stays `''`); only when there is no
`Meta` attribute at all is `name = cls.__name__.lower()`. -/
def regName (c : ClassDesc) : String :=
  match c.meta with
  | some m =>
    match m.isClass, m.name with
    | true, some n => n
    | _, _ => ""
  | none => strLower c.clsName

/-- The built-in locale-aware providers exposed by `Generic` as lazy
properties. -/
inductive ProvKind where
  | personal
  | address
  | datetime
  | business
  | text
  | food
  | science
  | code
deriving DecidableEq, Repr

/-- A constructed provider instance: its class and the locale passed to the
constructor. -/
structure ProviderInst where
  kind : ProvKind
  locale : String
deriving DecidableEq, Repr

/-- A `Generic` attribute slot `self._personal` etc.: either still the class
object (callable) or an already-constructed instance (not callable for these
provider classes). -/
inductive Slot where
  | cls
  | inst (p : ProviderInst)
deriving DecidableEq, Repr

/-- The state of a `Generic` facade: its locale, the eight lazy provider
slots, and the attributes bound by `add_provider` (modelled as a registry
mapping attribute names to the registered class). -/
structure GenericState where
  locale : String
  slots : ProvKind → Slot
  registry : String → Option ClassDesc

/-- `Generic.__init__(locale)`: every lazy slot holds the class object, no
provider has been registered. -/
def GenericState.init (locale : String) : GenericState :=
  ⟨locale, fun _ => .cls, fun _ => none⟩

/-- A lazy property of `Generic`, e.g. `personal`: if the slot is still
callable (holds the class), construct the provider with the facade's locale
and overwrite the slot; return the slot's instance. -/
def GenericState.access (g : GenericState) (k : ProvKind) :
    ProviderInst × GenericState :=
  match g.slots k with
  | .cls =>
    let p : ProviderInst := ⟨k, g.locale⟩
    (p, { g with slots := fun j => if j = k then .inst p else g.slots j })
  | .inst p => (p, g)

/-- `Generic.add_provider(cls)`: a class descriptor is instantiated and bound
under its registration name (`setattr` overwrites any prior binding); a
non-class value raises `TypeError("Provider must be a class")`. -/
def GenericState.add_provider (g : GenericState) (v : PyValue) :
    Except String GenericState :=
  match v with
  | .cls c =>
    .ok { g with registry := fun n => if n = regName c then some c else g.registry n }
  | .other _ => .error "Provider must be a class"

lemma randint_mem (a b : Int) (r : Nat) (hab : a ≤ b) :
    a ≤ randint a b r ∧ randint a b r ≤ b := by
  unfold randint
  have hpos : (0 : Int) < b - a + 1 := by omega
  have h1 : 0 ≤ (r : Int) % (b - a + 1) :=
    Int.emod_nonneg _ (by omega)
  have h2 : (r : Int) % (b - a + 1) < b - a + 1 :=
    Int.emod_lt_of_pos _ hpos
  omega

/-- Claim C1: for every template expanded with the default placeholder symbols
(letter `'@'`, digit `'#'`), `Code.custom_code` returns a string of the same
length in which literal positions copy the template, letter-placeholder
positions hold uppercase ASCII letters, digit-placeholder positions hold
decimal digits; the empty template yields the empty string and a template with
no placeholder symbols is returned unchanged. -/
theorem C1_custom_code_default (mask : String) (g : Nat → Nat) :
    (custom_code mask '@' '#' g).length = mask.length ∧
    (∀ i, i < mask.data.length →
      (mask.data.getD i ' ' = '@' →
        isUpperAscii ((custom_code mask '@' '#' g).data.getD i ' ')) ∧
      (mask.data.getD i ' ' = '#' →
        isDigitChar ((custom_code mask '@' '#' g).data.getD i ' ')) ∧
      (mask.data.getD i ' ' ≠ '@' → mask.data.getD i ' ' ≠ '#' →
        (custom_code mask '@' '#' g).data.getD i ' ' = mask.data.getD i ' ')) ∧
    custom_code "" '@' '#' g = "" ∧
    ((∀ p ∈ mask.data, p ≠ '@' ∧ p ≠ '#') → custom_code mask '@' '#' g = mask) := by
  refine ⟨?_, fun i hi => ?_, ?_, fun h => ?_⟩
  · show (custom_code_aux mask.data '@' '#' g 0).length = mask.data.length
    exact custom_code_aux_length _ _ _ _ _
  · have hspec := custom_code_aux_spec mask.data '@' '#' g 0 i hi
    refine ⟨hspec.1, fun hd => ?_, hspec.2.2⟩
    have hne : mask.data.getD i ' ' ≠ '@' := by rw [hd]; decide
    exact hspec.2.1 hne hd
  · rfl
  · show (⟨custom_code_aux mask.data '@' '#' g 0⟩ : String) = mask
    rw [custom_code_aux_id mask.data '@' '#' g 0 h]

/-- Witness for C1 at the concrete template `"@#-"` with oracle `fun _ => 5`. -/
theorem C1_witness :
    isUpperAscii ((custom_code "@#-" '@' '#' (fun _ => 5)).data.getD 0 ' ') ∧
    custom_code "AB-12" '@' '#' (fun _ => 5) = "AB-12" := by
  constructor
  · exact ((C1_custom_code_default "@#-" (fun _ => 5)).2.1 0 (by decide)).1 (by decide)
  · exact (C1_custom_code_default "AB-12" (fun _ => 5)).2.2.2 (by decide)

/-- Claim C10: when the same character `c` is supplied as both the letter
placeholder and the digit placeholder, every occurrence of `c` in the mask is
expanded by the letter rule (the output equals the letter-only expansion, so
the digit branch is never taken), because the letter comparison is checked
first; positions not holding `c` are copied unchanged. -/
theorem C10_placeholder_collision (mask : String) (c : Char) (g : Nat → Nat) :
    custom_code mask c c g = ⟨custom_code_aux_letter mask.data c g 0⟩ ∧
    (∀ i, i < mask.data.length →
      (mask.data.getD i ' ' = c →
        isUpperAscii ((custom_code mask c c g).data.getD i ' ')) ∧
      (mask.data.getD i ' ' ≠ c →
        (custom_code mask c c g).data.getD i ' ' = mask.data.getD i ' ')) := by
  refine ⟨?_, fun i hi => ?_⟩
  · show (⟨custom_code_aux mask.data c c g 0⟩ : String) = _
    rw [custom_code_aux_collision]
  · have hspec := custom_code_aux_spec mask.data c c g 0 i hi
    exact ⟨hspec.1, fun hne => hspec.2.2 hne hne⟩

/-- Witness for C10 at the concrete mask `"#-#"` with `c = '#'` as both
placeholders: every `'#'` becomes an uppercase letter. -/
theorem C10_witness :
    isUpperAscii ((custom_code "#-#" '#' '#' (fun _ => 3)).data.getD 0 ' ') ∧
    (custom_code "#-#" '#' '#' (fun _ => 3)).data.getD 1 ' ' = '-' := by
  constructor
  · exact (((C10_placeholder_collision "#-#" '#' (fun _ => 3)).2 0 (by decide)).1) (by decide)
  · exact (((C10_placeholder_collision "#-#" '#' (fun _ => 3)).2 1 (by decide)).2) (by decide)

lemma digit_char_roundtrip : ∀ j : Fin 10, (Char.ofNat (48 + j.val)).toNat - 48 = j.val := by
  decide

/-- Claim C2: for every string of decimal digit characters with length at
least 1, the Luhn check-digit function returns exactly one decimal digit
character such that appending it to the input yields a string passing
standard Luhn mod-10 validation; on the reference input `"7992739871"` it
returns `"3"`. -/
theorem C2_luhn_check_digit (s : String) (hne : s.data ≠ [])
    (hdig : ∀ c ∈ s.data, isDigitChar c) :
    (luhn_checksum_str s).length = 1 ∧
    isDigitChar ((luhn_checksum_str s).data.getD 0 ' ') ∧
    luhnValid (strToDigits (s ++ luhn_checksum_str s)) ∧
    luhn_checksum_str "7992739871" = "3" := by
  have hlt : luhn_checksum (strToDigits s) < 10 := luhn_checksum_lt _
  refine ⟨rfl, ?_, ?_, by decide⟩
  · show isDigitChar (Char.ofNat (48 + luhn_checksum (strToDigits s)))
    have : Char.ofNat (48 + luhn_checksum (strToDigits s))
        = digitChar (luhn_checksum (strToDigits s)) := by
      unfold digitChar
      rw [Nat.mod_eq_of_lt hlt]
    rw [this]
    exact digitChar_digit _
  · have hsplit : strToDigits (s ++ luhn_checksum_str s)
        = strToDigits s ++ [luhn_checksum (strToDigits s)] := by
      unfold strToDigits luhn_checksum_str
      rw [String.data_append, List.map_append]
      have := digit_char_roundtrip ⟨luhn_checksum (strToDigits s), hlt⟩
      simp only [List.map_cons, List.map_nil]
      rw [this]
      rfl
    rw [hsplit]
    exact luhn_append_valid _

/-- Witness for C2 at the reference input `"7992739871"`. -/
theorem C2_witness :
    luhnValid (strToDigits ("7992739871" ++ luhn_checksum_str "7992739871")) ∧
    luhn_checksum_str "7992739871" = "3" :=
  ⟨(C2_luhn_check_digit "7992739871" (by decide) (by decide)).2.2.1,
   (C2_luhn_check_digit "7992739871" (by decide) (by decide)).2.2.2⟩

/-- Counterexample to C3: `age(0, 0)` legitimately stores the age value `0`,
which collides with the unset sentinel; the next dependent-accessor call
(`child_count`) then re-samples the age via the implicit `age()` call and the
stored slot changes (here to 66), contradicting the claim that for every
stored age value dependent accessors leave the slot unchanged. -/
theorem C3_counterexample :
    (Personal.age 0 0 0 PersonalState.init).2.age = 0 ∧
    (Personal.child_count 5 50 0 (Personal.age 0 0 0 PersonalState.init).2).2
      ≠ (Personal.age 0 0 0 PersonalState.init).2 := by
  decide

/-- Claim C3 amended: for every Personal instance whose stored age value is
nonzero, a dependent accessor (`child_count` or `work_experience`) never
re-samples the stored age: each call returns the state unchanged (so two
consecutive calls with no intervening `age()` leave the slot unchanged) and
computes its result from that same stored age, even though `child_count`'s
own randomized component varies with its oracle. When the slot holds `0`
(unset sentinel, or a legitimately stored 0), the next dependent call
re-invokes `age()` and overwrites the slot. -/
theorem C3_amended (s : PersonalState) (mc ws : Int) (r1 r2 r3 : Nat)
    (h : s.age ≠ 0) :
    (Personal.child_count mc r1 r2 s).2 = s ∧
    (Personal.child_count mc r1 r2 s).1
      = (if s.age < 18 then 0 else randint 0 mc r2) ∧
    (Personal.work_experience ws r3 s).2 = s ∧
    (Personal.work_experience ws r3 s).1 = max (s.age - ws) 0 := by
  have hcc : Personal.child_count mc r1 r2 s
      = (if s.age < 18 then 0 else randint 0 mc r2, s) := by
    unfold Personal.child_count
    simp only [if_neg h]
  have hwe : Personal.work_experience ws r3 s = (max (s.age - ws) 0, s) := by
    unfold Personal.work_experience
    simp only [if_neg h]
  rw [hcc, hwe]
  exact ⟨rfl, rfl, rfl, rfl⟩

/-- Witness for C3 at a state with stored age 20. -/
theorem C3_witness :
    (20 : Int) ≠ 0 ∧ (Personal.child_count 5 7 9 ⟨20⟩).2 = ⟨20⟩ :=
  ⟨by decide, (C3_amended ⟨20⟩ 5 22 7 9 11 (by decide)).1⟩

/-- Claim C5: for every Personal instance whose age slot is unset (the
sentinel 0), `child_count(max_childs)` first implicitly invokes `age()` with
its default bounds (16, 66), storing the sampled age as a side effect, and
then returns 0 when the stored age is below 18 and otherwise
`randint(0, max_childs)`; the result is a non-negative integer bounded by
`max_childs`, even before any explicit call to `age`. -/
theorem C5_child_count_implicit_age (max_childs : Int) (r1 r2 : Nat)
    (s : PersonalState) (hunset : s.age = 0) (hmc : 0 ≤ max_childs) :
    (Personal.child_count max_childs r1 r2 s).2.age = randint 16 66 r1 ∧
    16 ≤ (Personal.child_count max_childs r1 r2 s).2.age ∧
    (Personal.child_count max_childs r1 r2 s).2.age ≤ 66 ∧
    ((Personal.child_count max_childs r1 r2 s).2.age < 18 →
      (Personal.child_count max_childs r1 r2 s).1 = 0) ∧
    (18 ≤ (Personal.child_count max_childs r1 r2 s).2.age →
      (Personal.child_count max_childs r1 r2 s).1 = randint 0 max_childs r2 ∧
      (Personal.child_count max_childs r1 r2 s).1 ≤ max_childs) ∧
    0 ≤ (Personal.child_count max_childs r1 r2 s).1 := by
  have hb := randint_mem 16 66 r1 (by norm_num)
  have hc := randint_mem 0 max_childs r2 hmc
  have hred : Personal.child_count max_childs r1 r2 s
      = (if randint 16 66 r1 < 18 then 0 else randint 0 max_childs r2,
         ⟨randint 16 66 r1⟩) := by
    unfold Personal.child_count Personal.age
    simp [hunset]
  rw [hred]
  dsimp only
  refine ⟨rfl, hb.1, hb.2, fun hlt => ?_, fun hge => ?_, ?_⟩
  · rw [if_pos hlt]
  · rw [if_neg (by omega : ¬ randint 16 66 r1 < 18)]
    exact ⟨rfl, hc.2⟩
  · by_cases hlt : randint 16 66 r1 < 18
    · rw [if_pos hlt]
    · rw [if_neg hlt]
      exact hc.1

/-- Witness for C5 at the freshly constructed instance. -/
theorem C5_witness :
    PersonalState.init.age = 0 ∧ (0 : Int) ≤ 5 ∧
    0 ≤ (Personal.child_count 5 4 9 PersonalState.init).1 :=
  ⟨rfl, by decide,
   (C5_child_count_implicit_age 5 4 9 PersonalState.init rfl (by decide)).2.2.2.2.2⟩

/-- Counterexample to C6: `age(0, 0)` stores the age value `0`, which the code
cannot distinguish from the unset sentinel; `work_experience(22)` then
re-samples the age (here obtaining 66) and returns 44 instead of
`max(0 - 22, 0) = 0`, contradicting the claim for the stored age value 0. -/
theorem C6_counterexample :
    (Personal.age 0 0 0 PersonalState.init).2.age = 0 ∧
    (Personal.work_experience 22 50 (Personal.age 0 0 0 PersonalState.init).2).1
      ≠ max ((Personal.age 0 0 0 PersonalState.init).2.age - 22) 0 := by
  decide

/-- Claim C6 amended: for every Personal instance whose stored age value `a`
is nonzero and every `working_start_age` `ws`, `work_experience(ws)` returns
`max(a - ws, 0)` — never negative — leaving the state unchanged; in
particular, after `age(18, 18)` (which stores 18), `work_experience(22)`
returns 0. When the stored value is 0 the code treats it as unset and
re-samples the age first. -/
theorem C6_amended (s : PersonalState) (ws : Int) (r : Nat) (h : s.age ≠ 0) :
    Personal.work_experience ws r s = (max (s.age - ws) 0, s) ∧
    0 ≤ (Personal.work_experience ws r s).1 ∧
    (∀ r1 r2 : Nat,
      (Personal.age 18 18 r1 PersonalState.init).2.age = 18 ∧
      (Personal.work_experience 22 r2
        (Personal.age 18 18 r1 PersonalState.init).2).1 = 0) := by
  have hwe : Personal.work_experience ws r s = (max (s.age - ws) 0, s) := by
    unfold Personal.work_experience
    simp only [if_neg h]
  refine ⟨hwe, ?_, fun r1 r2 => ?_⟩
  · rw [hwe]
    exact le_max_right _ _
  · have hstore : (Personal.age 18 18 r1 PersonalState.init).2.age = 18 := by
      show randint 18 18 r1 = 18
      unfold randint
      omega
    refine ⟨hstore, ?_⟩
    unfold Personal.work_experience
    rw [hstore]
    simp only [if_neg (by decide : (18 : Int) ≠ 0)]
    decide

/-- Witness for C6 at a state with stored age 30 and starting work age 22. -/
theorem C6_witness :
    (30 : Int) ≠ 0 ∧ Personal.work_experience 22 3 ⟨30⟩ = (8, ⟨30⟩) := by
  refine ⟨by decide, ?_⟩
  have h := (C6_amended ⟨30⟩ 22 3 (by decide)).1
  simpa using h

/-- Counterexample to C4: `Code.ean` does not signal an error on the
unrecognized format `"ean-99"`; it silently substitutes the default EAN-13
format, producing the same 13-character output as `fmt = "ean-13"`. -/
theorem C4_counterexample :
    Code.ean "ean-99" (fun _ => 0) = Code.ean "ean-13" (fun _ => 0) ∧
    (Code.ean "ean-99" (fun _ => 0)).length = 13 := by
  decide

/-- Claim C4 amended: only `Personal.credit_card_number` signals a
descriptive error naming the offending selector (for any `card_type` outside
the recognized set); `Code.ean` and `Code.isbn` substitute their default
format (EAN-13 and ISBN-10 respectively) for every unrecognized `fmt` value
instead of erroring. -/
theorem C4_amended (fmt ct loc : String) (grp : String → Option String)
    (g : Nat → Nat) :
    (fmt ≠ "ean-8" → Code.ean fmt g = Code.ean "ean-13" g) ∧
    (fmt ≠ "isbn-13" → Code.isbn grp loc fmt g = Code.isbn grp loc "isbn-10" g) ∧
    (ct ∉ (["visa", "vi", "v", "master_card", "mc", "master", "m",
            "american_express", "amex", "ax", "a"] : List String) →
      Personal.credit_card_number ct g
        = .error ("Card type " ++ ct ++ " is not supported.")) := by
  refine ⟨fun h8 => ?_, fun h13 => ?_, fun hct => ?_⟩
  · unfold Code.ean
    rw [if_neg h8, if_neg (by decide : ¬ ("ean-13" : String) = "ean-8")]
  · unfold Code.isbn
    dsimp only
    rw [if_neg h13, if_neg (by decide : ¬ ("isbn-10" : String) = "isbn-13")]
  · have h1 : ct ∉ (["visa", "vi", "v"] : List String) := by
      intro hm
      exact hct (by simp only [List.mem_cons, List.not_mem_nil, or_false] at hm ⊢; tauto)
    have h2 : ct ∉ (["master_card", "mc", "master", "m"] : List String) := by
      intro hm
      exact hct (by simp only [List.mem_cons, List.not_mem_nil, or_false] at hm ⊢; tauto)
    have h3 : ct ∉ (["american_express", "amex", "ax", "a"] : List String) := by
      intro hm
      exact hct (by simp only [List.mem_cons, List.not_mem_nil, or_false] at hm ⊢; tauto)
    unfold Personal.credit_card_number
    rw [if_neg h1, if_neg h2, if_neg h3]

/-- Witness for C4 at the concrete unrecognized selectors `"x"`. -/
theorem C4_witness :
    Code.ean "x" (fun _ => 0) = Code.ean "ean-13" (fun _ => 0) ∧
    Personal.credit_card_number "x" (fun _ => 0)
      = .error "Card type x is not supported." := by
  have h := C4_amended "x" "x" "en" (fun _ => none) (fun _ => 0)
  exact ⟨h.1 (by decide), h.2.2 (by decide)⟩

/-- Counterexample to C7: a descriptor whose `Meta` is a class without a
`name` attribute is registered under the empty name, not under its lowercased
identifier `"foo"`: the dangling `else` in `add_provider` attaches the
lowercase fallback to `hasattr(cls, 'Meta')`, not to the inner test. -/
theorem C7_counterexample :
    regName ⟨"Foo", some ⟨true, none⟩⟩ = "" ∧
    regName ⟨"Foo", some ⟨true, none⟩⟩ ≠ "foo" ∧
    ((GenericState.init "en").add_provider
        (.cls ⟨"Foo", some ⟨true, none⟩⟩)).toOption.map
      (fun g2 => (g2.registry "foo", g2.registry ""))
      = some (none, some ⟨"Foo", some ⟨true, none⟩⟩) := by
  decide

/-- Claim C7 amended: the registration name is `Meta.name` when the
descriptor's `Meta` is a class carrying a `name` attribute; the descriptor's
lowercased identifier is used only when the descriptor has no `Meta`
attribute at all (a `Meta` without a usable name yields the empty name). The
instance is stored under the resolved name, and registering two descriptors
resolving to the same name leaves only the second instance reachable under
that name (last write wins). -/
theorem C7_amended (c : ClassDesc) (n : String) :
    (c.meta = some ⟨true, some n⟩ → regName c = n) ∧
    (c.meta = none → regName c = strLower c.clsName) ∧
    (∀ (c1 c2 : ClassDesc) (g0 g1 g2 : GenericState),
      regName c1 = regName c2 →
      g0.add_provider (.cls c1) = .ok g1 →
      g1.add_provider (.cls c2) = .ok g2 →
      g2.registry (regName c2) = some c2 ∧
      (c1 ≠ c2 → g2.registry (regName c2) ≠ some c1)) := by
  refine ⟨fun hm => ?_, fun hm => ?_, fun c1 c2 g0 g1 g2 hn h1 h2 => ?_⟩
  · unfold regName
    rw [hm]
  · unfold regName
    rw [hm]
  · have hg2 : g2.registry (regName c2) = some c2 := by
      have e2 : g1.add_provider (.cls c2)
          = .ok { g1 with registry :=
              fun m => if m = regName c2 then some c2 else g1.registry m } := rfl
      rw [e2] at h2
      cases h2
      simp
    refine ⟨hg2, fun hne hc => ?_⟩
    rw [hg2] at hc
    exact hne (Option.some.inj hc).symm

/-- Witness for C7: a descriptor declaring `Meta.name = "custom"` registers
under `"custom"`, and re-registering under the same resolved name leaves the
second descriptor reachable. -/
theorem C7_witness :
    regName ⟨"Foo", some ⟨true, some "custom"⟩⟩ = "custom" ∧
    regName ⟨"Bar", none⟩ = "bar" := by
  constructor
  · exact (C7_amended ⟨"Foo", some ⟨true, some "custom"⟩⟩ "custom").1 rfl
  · have h := (C7_amended ⟨"Bar", none⟩ "custom").2.1 rfl
    rw [h]
    decide

/-- Claim C8: calling `add_provider` with any value that is not a class
descriptor signals `TypeError("Provider must be a class")` immediately; no
state is produced, so no name is bound and the registry is unchanged by the
failed call. -/
theorem C8_add_provider_non_class (g : GenericState) (v : PyValue)
    (h : ∀ c, v ≠ PyValue.cls c) :
    g.add_provider v = .error "Provider must be a class" := by
  cases v with
  | cls c => exact absurd rfl (h c)
  | other t => rfl

/-- Witness for C8 at the non-class value tagged 0. -/
theorem C8_witness :
    (GenericState.init "en").add_provider (.other 0)
      = .error "Provider must be a class" :=
  C8_add_provider_non_class (GenericState.init "en") (.other 0)
    (fun c hc => PyValue.noConfusion hc)

/-- Claim C9: for every `Generic` facade and every built-in locale-aware
accessor (personal, address, datetime, business, text, food, science, code),
the first access constructs the provider with the facade's configured locale
and caches it in the slot, and every access on a state whose slot already
holds an instance returns that same instance without constructing a new one
(the state is unchanged). -/
theorem C9_lazy_cached_accessors (loc : String) (k : ProvKind) :
    ((GenericState.init loc).access k).1 = ⟨k, loc⟩ ∧
    ((GenericState.init loc).access k).2.slots k = .inst ⟨k, loc⟩ ∧
    ((GenericState.init loc).access k).2.locale = loc ∧
    (∀ (g : GenericState) (p : ProviderInst), g.slots k = .inst p →
      g.access k = (p, g)) := by
  refine ⟨rfl, by simp [GenericState.access, GenericState.init], rfl,
    fun g p h => ?_⟩
  unfold GenericState.access
  rw [h]

/-- Witness for C9: accessing `personal` twice on a facade with locale
`"en"` returns the cached instance and leaves the state unchanged. -/
theorem C9_witness :
    (((GenericState.init "en").access ProvKind.personal).2).access
        ProvKind.personal
      = (⟨ProvKind.personal, "en"⟩,
         ((GenericState.init "en").access ProvKind.personal).2) :=
  (C9_lazy_cached_accessors "en" ProvKind.personal).2.2.2
    ((GenericState.init "en").access ProvKind.personal).2
    ⟨ProvKind.personal, "en"⟩ (by decide)

end Elizabeth
